import Mathlib

/-!
Shallow embedding of the query-planning and hybrid-retrieval pipeline of
`src/backend/scripts/persistent-rag-cli.ts` (class `PersistentKokkaiRAGCLI`)
together with the plan normalization of `QueryPlanningService.createQueryPlan`.

External collaborators (the LLM completion service, the embedding service and
the PostgreSQL/pgvector store) are modelled as explicit oracle functions; a
fallible call returns `Except String α`.  JavaScript numbers are modelled as
`ℚ`.  A JavaScript value that may be absent (`undefined`/`null`) is modelled
as an `Option`; the JavaScript `x || d` defaulting idiom is modelled by
`jsOrNum` / `jsOrStr` (a number is falsy exactly when it is `0`, a string
exactly when it is empty, an array is always truthy).
-/

namespace KokkaiRag

/-- Source record `SpeechResult` (persistent-rag-cli.ts lines 9-18). -/
structure SpeechResult where
  speechId : String
  speaker : String
  party : String
  date : String
  meeting : String
  content : String
  url : String
  score : ℚ
deriving DecidableEq

/-- The `dateRange` sub-object of `KokkaiEntities` (lines 23-27).
The source field `end` is a Lean keyword, rendered here as `endDate`. -/
structure DateRange where
  start : String
  endDate : String
deriving DecidableEq

/-- Source record `KokkaiEntities` (lines 20-31).  After plan normalization every list
field is present (defaulted to `[]`), and the guard
`entities.xs && entities.xs.length > 0` treats a missing list exactly like an
empty one, so list fields are modelled as plain lists. -/
structure KokkaiEntities where
  speakers : List String
  parties : List String
  dateRange : Option DateRange
  meetings : List String
  topics : List String
  positions : List String
deriving DecidableEq

/-- Source record `QueryPlan` (lines 33-40). -/
structure QueryPlan where
  originalQuestion : String
  subqueries : List String
  entities : KokkaiEntities
  enabledStrategies : List String
  confidence : ℚ
  estimatedComplexity : ℚ
deriving DecidableEq

/-- The JSON object obtained by `JSON.parse` of the planner response, as far
as `createQueryPlan` reads it: each field may be absent (`none`). -/
structure PlanData where
  subqueries : Option (List String)
  speakers : Option (List String)
  parties : Option (List String)
  topics : Option (List String)
  meetings : Option (List String)
  positions : Option (List String)
  dateRange : Option DateRange
  enabledStrategies : Option (List String)
  confidence : Option ℚ
  estimatedComplexity : Option ℚ
deriving DecidableEq

/-- JavaScript `x || d` for a possibly-absent number: the result is `d` when
the value is absent or `0` (the only falsy rational), else the value. -/
def jsOrNum (v : Option ℚ) (d : ℚ) : ℚ :=
  match v with
  | none => d
  | some x => if x = 0 then d else x

/-- JavaScript `x || d` for a possibly-absent string: the result is `d` when
the value is absent or the empty string, else the value. -/
def jsOrStr (v : Option String) (d : String) : String :=
  match v with
  | none => d
  | some s => if s = "" then d else s

/-- Plan normalization: `QueryPlanningService.createQueryPlan`
(src/unnamed/part_000 lines 54-68), identical to the normalization in
`planKokkaiQuery` (persistent-rag-cli.ts lines 165-179).  An absent JSON
list field defaults (`||`); a present list is taken verbatim (a JavaScript
array, even `[]`, is truthy). -/
def createQueryPlan (question : String) (planData : PlanData) : QueryPlan :=
  { originalQuestion := question
    subqueries := planData.subqueries.getD [question]
    entities :=
      { speakers := planData.speakers.getD []
        parties := planData.parties.getD []
        topics := planData.topics.getD []
        meetings := planData.meetings.getD []
        positions := planData.positions.getD []
        dateRange := planData.dateRange }
    enabledStrategies := planData.enabledStrategies.getD ["vector"]
    confidence := jsOrNum planData.confidence (1/2)
    estimatedComplexity := jsOrNum planData.estimatedComplexity 2 }

/-- One conjunct of the WHERE clause built by `applyStructuredFilter`
(persistent-rag-cli.ts lines 203-232): a disjunction of `ILIKE` patterns
over `e.speaker`, one over `e.speaker_group`, or a closed date interval. -/
inductive FilterCondition where
  | speakerLike (patterns : List String)
  | partyLike (patterns : List String)
  | dateBetween (start endDate : String)
deriving DecidableEq

/-- The conjunctive predicate assembled by `applyStructuredFilter`
(lines 203-232): speakers and parties become `%…%` `ILIKE` pattern
disjunctions, `dateRange` a closed interval; empty categories are omitted.
`meetings`, `topics` and `positions` are never read. -/
def buildConditions (entities : KokkaiEntities) : List FilterCondition :=
  (if entities.speakers.length > 0 then
      [FilterCondition.speakerLike
        (entities.speakers.map (fun s => "%" ++ s ++ "%"))]
    else [])
  ++ (if entities.parties.length > 0 then
      [FilterCondition.partyLike
        (entities.parties.map (fun s => "%" ++ s ++ "%"))]
    else [])
  ++ (match entities.dateRange with
      | some r => [FilterCondition.dateBetween r.start r.endDate]
      | none => [])

/-- Embedding of `applyStructuredFilter` (lines 196-255): with no conditions it returns
`[]` ("no structured filtering requested"); otherwise it runs the DISTINCT
speech-id query against the store, and on a store error it logs and returns
`[]` (the catch block at lines 251-254). -/
def applyStructuredFilter
    (filterStore : List FilterCondition → Except String (List String))
    (entities : KokkaiEntities) : List String :=
  let conditions := buildConditions entities
  if conditions.length = 0 then []
  else
    match filterStore conditions with
    | Except.ok rows => rows
    | Except.error _ => []

/-- A similarity query as issued by `searchWithPlan` (lines 294-333):
the embedded vector, an optional id-set restriction (`speech_id = ANY($2)`),
the distance ceiling of the `embedding <=> $1 < c` clause, and the `LIMIT`. -/
structure VectorQuery where
  embedding : List ℚ
  restriction : Option (List String)
  ceiling : ℚ
  limit : Nat
deriving DecidableEq

/-- Source record `DatabaseRow` (lines 42-51).  Nullable columns are `Option`s;
`similarity_score` arrives as text, modelled as `none` when
`parseFloat` would yield `NaN`. -/
structure DatabaseRow where
  speech_id : String
  speaker : Option String
  speaker_group : Option String
  date : Option String
  meeting_name : Option String
  speech_text : Option String
  speech_url : Option String
  similarity_score : Option ℚ
deriving DecidableEq

/-- Row-to-result mapping (lines 338-349), with the `||` placeholder
substitutions of the source. -/
def rowToResult (row : DatabaseRow) : SpeechResult :=
  { speechId := row.speech_id
    speaker := jsOrStr row.speaker "未知の議員"
    party := jsOrStr row.speaker_group "?"
    date := jsOrStr row.date "2024-01-01"
    meeting := jsOrStr row.meeting_name "?"
    content := jsOrStr row.speech_text ""
    url := jsOrStr row.speech_url ""
    score := jsOrNum row.similarity_score 0 }

/-- The external collaborators used by the retrieval pipeline: the embedding
service, the metadata-predicate store query of `applyStructuredFilter`, and
the similarity store query of `searchWithPlan`. -/
structure StoreOracles where
  embed : String → List ℚ
  filterStore : List FilterCondition → Except String (List String)
  vectorStore : VectorQuery → Except String (List DatabaseRow)

/-- Query expansion (lines 276-279): when the plan has topics they are
space-joined and appended to the sub-query before embedding. -/
def expandQuery (subquery : String) (topics : List String) : String :=
  if topics.length > 0 then subquery ++ " " ++ String.intercalate " " topics
  else subquery

/-- The similarity query built for one sub-query (lines 281-333): if the
`structured` strategy is enabled the structured filter is consulted; a
non-empty candidate list restricts the search with distance ceiling `0.8`,
an empty one falls back to an unrestricted search with ceiling `0.6`;
without `structured` the search is unrestricted with ceiling `0.7`. -/
def subqueryVectorQuery (o : StoreOracles) (plan : QueryPlan) (topK : Nat)
    (subquery : String) : VectorQuery :=
  let expandedQuery := expandQuery subquery plan.entities.topics
  let queryEmbedding := o.embed expandedQuery
  if plan.enabledStrategies.contains "structured" then
    let candidateIds := applyStructuredFilter o.filterStore plan.entities
    if candidateIds.length > 0 then
      { embedding := queryEmbedding, restriction := some candidateIds
        ceiling := 8/10, limit := topK }
    else
      { embedding := queryEmbedding, restriction := none
        ceiling := 6/10, limit := topK }
  else
    { embedding := queryEmbedding, restriction := none
      ceiling := 7/10, limit := topK }

/-- One sub-query execution (lines 272-352): build the similarity query,
run it, and map rows to results.  A store error propagates. -/
def searchSubquery (o : StoreOracles) (plan : QueryPlan) (topK : Nat)
    (subquery : String) : Except String (List SpeechResult) :=
  match o.vectorStore (subqueryVectorQuery o plan topK subquery) with
  | Except.ok rows => Except.ok (rows.map rowToResult)
  | Except.error e => Except.error e

/-- One step of `new Map(allResults.map((r) => [r.speechId, r]))`:
a JavaScript `Map` keeps the first-seen position of a key, and a repeated
key overwrites the stored value (last write wins). -/
def mapInsert (m : List SpeechResult) (r : SpeechResult) : List SpeechResult :=
  if m.any (fun x => x.speechId == r.speechId) then
    m.map (fun x => if x.speechId == r.speechId then r else x)
  else m ++ [r]

/-- Deduplication by `speechId` (lines 355-357), via the insertion-ordered
map semantics of `mapInsert`. -/
def dedupeBySpeechId (results : List SpeechResult) : List SpeechResult :=
  results.foldl mapInsert []

/-- Embedding of `.sort((a, b) => b.score - a.score)` (line 358).  ECMAScript `sort` is a
stable sort consistent with the comparator, so it computes the unique stable
descending-by-score permutation; insertion sort with the reflexive relation
`b.score ≤ a.score` is that stable sort. -/
def sortByScoreDesc (results : List SpeechResult) : List SpeechResult :=
  results.insertionSort (fun a b => b.score ≤ a.score)

/-- Result aggregation (lines 354-359): deduplicate by `speechId`, sort by
score descending, truncate to `topK` (`.slice(0, topK)`). -/
def aggregateResults (allResults : List SpeechResult) (topK : Nat) :
    List SpeechResult :=
  (sortByScoreDesc (dedupeBySpeechId allResults)).take topK

/-- The sub-query loop of `searchWithPlan` (lines 269-352): results are
accumulated across sub-queries; an error thrown by any sub-query's store
call escapes the loop (the surrounding `try` re-throws at line 367). -/
def runSubqueries (o : StoreOracles) (plan : QueryPlan) (topK : Nat) :
    List String → List SpeechResult → Except String (List SpeechResult)
  | [], allResults => Except.ok allResults
  | subquery :: rest, allResults =>
    match searchSubquery o plan topK subquery with
    | Except.error e => Except.error e
    | Except.ok rs => runSubqueries o plan topK rest (allResults ++ rs)

/-- Embedding of `searchWithPlan` (lines 258-369): run every sub-query in order, then
aggregate.  Any error from the loop propagates to the caller. -/
def searchWithPlan (o : StoreOracles) (plan : QueryPlan) (topK : Nat) :
    Except String (List SpeechResult) :=
  match runSubqueries o plan topK plan.subqueries [] with
  | Except.ok allResults => Except.ok (aggregateResults allResults topK)
  | Except.error e => Except.error e

/-- Embedding of `Array.prototype.join(sep)`. -/
def joinSep (sep : String) : List String → String
  | [] => ""
  | [s] => s
  | s :: rest => s ++ sep ++ joinSep sep rest

/-- Embedding of `content.substring(0, 300)` in the fallback block (line 434),
as taking the first 300 characters. -/
def truncate300 (s : String) : String := String.mk (s.data.take 300)

/-- Zero-pad a natural number below 1000 to three digits. -/
def pad3 (n : Nat) : String :=
  if n < 10 then "00" ++ toString n
  else if n < 100 then "0" ++ toString n
  else toString n

/-- Embedding of `score.toFixed(3)` (lines 396 and 436): render with three
digits after the decimal point (rounding to the nearest thousandth). -/
def toFixed3 (q : ℚ) : String :=
  let n : Int := round (q * 1000)
  let sign := if n < 0 then "-" else ""
  let m := n.natAbs
  sign ++ toString (m / 1000) ++ "." ++ pad3 (m % 1000)

/-- One evidence block of the synthesis prompt (lines 387-398). -/
def contextBlock (index : Nat) (result : SpeechResult) : String :=
  "【発言 " ++ toString (index + 1) ++ "】\n議員: " ++ result.speaker
    ++ " (" ++ result.party ++ ")\n日付: " ++ result.date
    ++ "\n会議: " ++ result.meeting ++ "\n内容: " ++ result.content
    ++ "\n出典: " ++ result.url ++ "\n関連度: " ++ toFixed3 result.score ++ "\n"

/-- Indexed map building the evidence blocks. -/
def contextBlocks (index : Nat) : List SpeechResult → List String
  | [] => []
  | r :: rest => contextBlock index r :: contextBlocks (index + 1) rest

/-- The synthesis prompt of `generateAnswer` (lines 401-419). -/
def answerPrompt (query : String) (results : List SpeechResult) : String :=
  "以下の国会議事録から、質問に対して正確で詳細な回答を作成してください。\n\n質問: "
    ++ query ++ "\n\n国会議事録:\n" ++ joinSep "\n" (contextBlocks 0 results)
    ++ "\n\n回答要件:\n1. 発言者名と所属政党を明記する\n2. 発言の日付と会議名を含める\n3. 具体的な内容を引用する\n4. 出典URLを提示する\n5. 複数の発言がある場合は比較・整理する際も、各要点に対応する出典URLを明記する\n6. まとめ部分でも、根拠となった発言の出典URLを含める\n7. 事実に基づいて回答し、推測は避ける\n\n重要: 議論の比較・整理やまとめの各項目にも、必ず根拠となった発言の出典URL（例: https://kokkai.ndl.go.jp/txt/...）を併記してください。\n\n回答:"

/-- One block of the deterministic fallback answer (lines 428-438). -/
def fallbackBlock (index : Nat) (result : SpeechResult) : String :=
  toString (index + 1) ++ ". " ++ result.speaker ++ " (" ++ result.party
    ++ ")\n   日付: " ++ result.date ++ "\n   会議: " ++ result.meeting
    ++ "\n   内容: " ++ truncate300 result.content ++ "...\n   出典: "
    ++ result.url ++ "\n   関連度: " ++ toFixed3 result.score

/-- Indexed map building the fallback blocks. -/
def fallbackBlocks (index : Nat) : List SpeechResult → List String
  | [] => []
  | r :: rest => fallbackBlock index r :: fallbackBlocks (index + 1) rest

/-- The deterministic non-generative fallback answer (lines 426-438). -/
def fallbackAnswer (results : List SpeechResult) : String :=
  "検索結果に基づく情報:\n\n" ++ joinSep "\n\n" (fallbackBlocks 0 results)

/-- Embedding of `generateAnswer` (lines 378-440): build the prompt, ask the
completion service, return its text on success; on any completion error
return the deterministic fallback assembled from the result list. -/
def generateAnswer (llm : String → Except String String) (query : String)
    (results : List SpeechResult) : String :=
  match llm (answerPrompt query results) with
  | Except.ok text => text
  | Except.error _ => fallbackAnswer results

/-- A sample collaborator set for concrete instantiations: the filter store
resolves one candidate id, the vector store returns no rows. -/
def sampleOracles : StoreOracles :=
  { embed := fun _ => [1]
    filterStore := fun _ => Except.ok ["id1"]
    vectorStore := fun _ => Except.ok [] }

/-- Sample extracted entities with one speaker. -/
def sampleEntities : KokkaiEntities :=
  { speakers := ["岸田文雄"], parties := [], dateRange := none
    meetings := [], topics := [], positions := [] }

/-- A sample query plan with the structured strategy enabled. -/
def samplePlan : QueryPlan :=
  { originalQuestion := "岸田総理の防衛費について"
    subqueries := ["岸田総理 防衛費"]
    entities := sampleEntities
    enabledStrategies := ["vector", "structured"]
    confidence := 1/2
    estimatedComplexity := 2 }

/-- A plan identical to the sample plan on speakers, parties, dateRange and
strategies, but with different meetings, positions and topics. -/
def framePlan : QueryPlan :=
  { originalQuestion := "岸田総理の防衛費について"
    subqueries := ["岸田総理 防衛費"]
    entities :=
      { speakers := ["岸田文雄"], parties := [], dateRange := none
        meetings := ["予算委員会"], topics := ["防衛費"], positions := ["総理大臣"] }
    enabledStrategies := ["vector", "structured"]
    confidence := 1/2
    estimatedComplexity := 2 }

/-- A parsed planner response with a zero confidence (valid per the spec)
and an out-of-range estimated complexity. -/
def invalidNumbersPlanData : PlanData :=
  { subqueries := none, speakers := none, parties := none, topics := none,
    meetings := none, positions := none, dateRange := none,
    enabledStrategies := none, confidence := some 0,
    estimatedComplexity := some 7 }

/-- A sample retrieval hit. -/
def sampleResult : SpeechResult :=
  { speechId := "S1", speaker := "岸田文雄", party := "自民党",
    date := "2024-02-01", meeting := "予算委員会", content := "防衛費に関する発言",
    url := "https://kokkai.ndl.go.jp/txt/100", score := mkRat 9 10 }

/-- A second hit for the same speech found by another sub-query, with a
lower score. -/
def sampleResultLow : SpeechResult :=
  { speechId := "S1", speaker := "岸田文雄", party := "自民党",
    date := "2024-02-01", meeting := "予算委員会", content := "同じ発言の別ヒット",
    url := "https://kokkai.ndl.go.jp/txt/101", score := mkRat 3 4 }

/-- A hit for a different speech with a distinct score. -/
def otherResult : SpeechResult :=
  { speechId := "S2", speaker := "枝野幸男", party := "立憲民主党",
    date := "2024-02-02", meeting := "法務委員会", content := "別の発言",
    url := "https://kokkai.ndl.go.jp/txt/102", score := mkRat 1 2 }

/-- The row returned by the vector store for the second sub-query in the
partial-failure scenario. -/
def sq2Row : DatabaseRow :=
  { speech_id := "S2", speaker := some "辻元清美",
    speaker_group := some "立憲民主党", date := some "2024-03-01",
    meeting_name := some "法務委員会", speech_text := some "発言",
    speech_url := some "https://kokkai.ndl.go.jp/txt/200",
    similarity_score := some 1 }

/-- The speech result corresponding to `sq2Row`. -/
def sq2Result : SpeechResult :=
  { speechId := "S2", speaker := "辻元清美", party := "立憲民主党",
    date := "2024-03-01", meeting := "法務委員会", content := "発言",
    url := "https://kokkai.ndl.go.jp/txt/200", score := 1 }

/-- An empty entity record. -/
def noEntities : KokkaiEntities :=
  { speakers := [], parties := [], dateRange := none,
    meetings := [], topics := [], positions := [] }

/-- Collaborators for which the similarity query of the first sub-query
fails while the second one succeeds: the embedding distinguishes the two
sub-queries and the vector store errors only on the first embedding. -/
def failingOracles : StoreOracles :=
  { embed := fun s => if s = "sq1" then [1] else [2]
    filterStore := fun _ => Except.ok []
    vectorStore := fun q =>
      if q.embedding = [1] then Except.error "boom" else Except.ok [sq2Row] }

/-- A plan with two sub-queries and only the vector strategy. -/
def twoSubqueryPlan : QueryPlan :=
  { originalQuestion := "質問"
    subqueries := ["sq1", "sq2"]
    entities := noEntities
    enabledStrategies := ["vector"]
    confidence := 1
    estimatedComplexity := 2 }

/-- The strict score order extended with equality, used to show the sorted
permutation is unique when all scores are distinct. -/
def scoreStrictOrEq (a b : SpeechResult) : Prop := b.score < a.score ∨ a = b

instance : IsAntisymm SpeechResult scoreStrictOrEq := by
  constructor
  intro a b hab hba
  rcases hab with h1 | h1
  · rcases hba with h2 | h2
    · exact absurd h1 (lt_asymm h2)
    · exact h2.symm
  · exact h1

lemma speechId_mapInsert (m : List SpeechResult) (r : SpeechResult) :
    (mapInsert m r).map SpeechResult.speechId =
      if m.any (fun x => x.speechId == r.speechId) then
        m.map SpeechResult.speechId
      else m.map SpeechResult.speechId ++ [r.speechId] := by
  unfold mapInsert
  by_cases h : m.any (fun x => x.speechId == r.speechId)
  · rw [if_pos h, if_pos h, List.map_map]
    apply List.map_congr_left
    intro a _
    simp only [Function.comp]
    by_cases hx : a.speechId == r.speechId
    · rw [if_pos hx]
      exact (eq_of_beq hx).symm
    · rw [if_neg hx]
  · rw [if_neg h, if_neg h, List.map_append]
    rfl

lemma dedupe_go_nodup (l : List SpeechResult) :
    ∀ acc : List SpeechResult, (acc.map SpeechResult.speechId).Nodup →
      ((l.foldl mapInsert acc).map SpeechResult.speechId).Nodup := by
  induction l with
  | nil => intro acc h; simpa using h
  | cons r rest ih =>
    intro acc h
    rw [List.foldl_cons]
    apply ih
    rw [speechId_mapInsert]
    by_cases hmem : acc.any (fun x => x.speechId == r.speechId)
    · rw [if_pos hmem]; exact h
    · rw [if_neg hmem]
      have hnotin : r.speechId ∉ acc.map SpeechResult.speechId := by
        intro hin
        rcases List.mem_map.mp hin with ⟨x, hx, hxid⟩
        apply hmem
        rw [List.any_eq_true]
        exact ⟨x, hx, by simp [hxid]⟩
      simp [List.nodup_append, h, hnotin]

lemma dedupe_nodup (l : List SpeechResult) :
    ((dedupeBySpeechId l).map SpeechResult.speechId).Nodup :=
  dedupe_go_nodup l [] (by simp)

lemma sortByScoreDesc_sorted (l : List SpeechResult) :
    (sortByScoreDesc l).Sorted (fun a b => b.score ≤ a.score) := by
  haveI : IsTotal SpeechResult (fun a b => b.score ≤ a.score) :=
    ⟨fun a b => le_total b.score a.score⟩
  haveI : IsTrans SpeechResult (fun a b => b.score ≤ a.score) :=
    ⟨fun a b c hab hbc => le_trans hbc hab⟩
  exact List.sorted_insertionSort _ _

lemma sortByScoreDesc_perm (l : List SpeechResult) :
    (sortByScoreDesc l).Perm l := List.perm_insertionSort _ _

lemma runSubqueries_error_of_mem (o : StoreOracles) (plan : QueryPlan)
    (topK : Nat) :
    ∀ (sqs : List String) (acc : List SpeechResult),
      (∃ sq ∈ sqs, ∃ e, searchSubquery o plan topK sq = Except.error e) →
      ∃ e, runSubqueries o plan topK sqs acc = Except.error e := by
  intro sqs
  induction sqs with
  | nil => intro acc h; simp at h
  | cons sq rest ih =>
    intro acc h
    rcases h with ⟨x, hx, e, he⟩
    cases hcase : searchSubquery o plan topK sq with
    | error e2 => exact ⟨e2, by simp [runSubqueries, hcase]⟩
    | ok rs =>
      rcases List.mem_cons.mp hx with hxe | hxrest
      · rw [hxe, hcase] at he
        exact absurd he (by simp)
      · have hrec : ∃ e, runSubqueries o plan topK rest (acc ++ rs)
            = Except.error e :=
          ih (acc ++ rs) ⟨x, hxrest, e, he⟩
        simpa [runSubqueries, hcase] using hrec

lemma foldl_mapInsert_of_nodup :
    ∀ (l acc : List SpeechResult),
      ((acc ++ l).map SpeechResult.speechId).Nodup →
      l.foldl mapInsert acc = acc ++ l := by
  intro l
  induction l with
  | nil => intro acc h; simp
  | cons r rest ih =>
    intro acc h
    rw [List.foldl_cons]
    have hnotin : ¬ acc.any (fun x => x.speechId == r.speechId) = true := by
      intro hany
      rcases List.any_eq_true.mp hany with ⟨x, hx, hbeq⟩
      have hxid : x.speechId = r.speechId := eq_of_beq hbeq
      have h' := h
      rw [List.map_append, List.nodup_append] at h'
      rcases h' with ⟨-, -, hdisj⟩
      exact hdisj (List.mem_map_of_mem _ hx) (by simp [hxid])
    have hins : mapInsert acc r = acc ++ [r] := by
      rw [mapInsert, if_neg hnotin]
    rw [hins]
    have hrec := ih (acc ++ [r]) (by rw [List.append_assoc]; exact h)
    rw [hrec, List.append_assoc]
    rfl

lemma dedupe_eq_self_of_nodup (l : List SpeechResult)
    (h : (l.map SpeechResult.speechId).Nodup) : dedupeBySpeechId l = l := by
  have hfold := foldl_mapInsert_of_nodup l [] (by simpa using h)
  simpa [dedupeBySpeechId] using hfold

lemma sortByScoreDesc_eq_of_perm (l₁ l₂ : List SpeechResult)
    (hperm : l₁.Perm l₂)
    (hscores : (l₁.map SpeechResult.score).Nodup) :
    sortByScoreDesc l₁ = sortByScoreDesc l₂ := by
  have hp : (sortByScoreDesc l₁).Perm (sortByScoreDesc l₂) :=
    ((sortByScoreDesc_perm l₁).trans hperm).trans (sortByScoreDesc_perm l₂).symm
  have hs₁ := sortByScoreDesc_sorted l₁
  have hs₂ := sortByScoreDesc_sorted l₂
  have hn₁ : ((sortByScoreDesc l₁).map SpeechResult.score).Nodup :=
    (((sortByScoreDesc_perm l₁).map _).symm).nodup hscores
  have hn₂ : ((sortByScoreDesc l₂).map SpeechResult.score).Nodup := by
    have hl₂ : (l₂.map SpeechResult.score).Nodup := (hperm.map _).nodup hscores
    exact (((sortByScoreDesc_perm l₂).map _).symm).nodup hl₂
  have hpw₁ : (sortByScoreDesc l₁).Sorted scoreStrictOrEq := by
    have hne := List.pairwise_map.mp hn₁
    exact (List.Pairwise.and hs₁ hne).imp
      (fun h => Or.inl (lt_of_le_of_ne h.1 (Ne.symm h.2)))
  have hpw₂ : (sortByScoreDesc l₂).Sorted scoreStrictOrEq := by
    have hne := List.pairwise_map.mp hn₂
    exact (List.Pairwise.and hs₂ hne).imp
      (fun h => Or.inl (lt_of_le_of_ne h.1 (Ne.symm h.2)))
  exact List.eq_of_perm_of_sorted hp hpw₁ hpw₂

lemma data_join_infix (sep : String) (s : String) (l : List String)
    (h : s ∈ l) : s.data <:+: (joinSep sep l).data := by
  induction l with
  | nil => cases h
  | cons x rest ih =>
    rcases List.mem_cons.mp h with hxe | hmem
    · subst hxe
      cases rest with
      | nil =>
        exact ⟨[], [], by simp [joinSep]⟩
      | cons y ys =>
        refine ⟨[], (sep ++ joinSep sep (y :: ys)).data, ?_⟩
        simp [joinSep, String.data_append, List.append_assoc]
    · cases rest with
      | nil => cases hmem
      | cons y ys =>
        have hmid : (joinSep sep (y :: ys)).data
            <:+: (joinSep sep (x :: y :: ys)).data := by
          refine ⟨(x ++ sep).data, [], ?_⟩
          simp [joinSep, String.data_append, List.append_assoc]
        exact (ih hmem).trans hmid

lemma url_infix_fallbackBlock (i : Nat) (r : SpeechResult) :
    r.url.data <:+: (fallbackBlock i r).data := by
  refine ⟨(toString (i + 1) ++ ". " ++ r.speaker ++ " (" ++ r.party
      ++ ")\n   日付: " ++ r.date ++ "\n   会議: " ++ r.meeting
      ++ "\n   内容: " ++ truncate300 r.content ++ "...\n   出典: ").data,
    ("\n   関連度: " ++ toFixed3 r.score).data, ?_⟩
  simp [fallbackBlock, String.data_append, List.append_assoc]

lemma block_mem_fallbackBlocks (r : SpeechResult) :
    ∀ (l : List SpeechResult) (i : Nat), r ∈ l →
      ∃ j, fallbackBlock j r ∈ fallbackBlocks i l := by
  intro l
  induction l with
  | nil => intro i h; cases h
  | cons x rest ih =>
    intro i h
    rcases List.mem_cons.mp h with hxe | hmem
    · subst hxe
      exact ⟨i, by simp [fallbackBlocks]⟩
    · rcases ih (i + 1) hmem with ⟨j, hj⟩
      exact ⟨j, by simp [fallbackBlocks, hj]⟩

/-- C1: for every sub-query execution the distance ceiling and the id
restriction are determined solely by the enabled strategies and the
structured filter's candidate ids: structured with non-empty candidates
restricts the search to those ids at ceiling 0.8, structured with empty
candidates searches unrestricted at ceiling 0.6, and without structured the
search is unrestricted at ceiling 0.7; an empty candidate list never
restricts the search to nothing. -/
theorem subquery_ceiling_selection (o : StoreOracles) (plan : QueryPlan)
    (topK : Nat) (subquery : String) :
    (plan.enabledStrategies.contains "structured" = true →
      applyStructuredFilter o.filterStore plan.entities ≠ [] →
      (subqueryVectorQuery o plan topK subquery).restriction
          = some (applyStructuredFilter o.filterStore plan.entities) ∧
        (subqueryVectorQuery o plan topK subquery).ceiling = 8/10) ∧
    (plan.enabledStrategies.contains "structured" = true →
      applyStructuredFilter o.filterStore plan.entities = [] →
      (subqueryVectorQuery o plan topK subquery).restriction = none ∧
        (subqueryVectorQuery o plan topK subquery).ceiling = 6/10) ∧
    (plan.enabledStrategies.contains "structured" = false →
      (subqueryVectorQuery o plan topK subquery).restriction = none ∧
        (subqueryVectorQuery o plan topK subquery).ceiling = 7/10) ∧
    (subqueryVectorQuery o plan topK subquery).restriction ≠ some [] := by
  refine ⟨?_, ?_, ?_, ?_⟩
  · intro hs hne
    have hmem : "structured" ∈ plan.enabledStrategies := by simpa using hs
    have hlen : 0 < (applyStructuredFilter o.filterStore plan.entities).length :=
      List.length_pos.mpr hne
    constructor <;> simp [subqueryVectorQuery, hmem, hlen]
  · intro hs hnil
    have hmem : "structured" ∈ plan.enabledStrategies := by simpa using hs
    constructor <;> simp [subqueryVectorQuery, hmem, hnil]
  · intro hs
    have hmem : "structured" ∉ plan.enabledStrategies := by simpa using hs
    constructor <;> simp [subqueryVectorQuery, hmem]
  · by_cases hmem : "structured" ∈ plan.enabledStrategies
    · by_cases hne : applyStructuredFilter o.filterStore plan.entities = []
      · simp [subqueryVectorQuery, hmem, hne]
      · have hlen := List.length_pos.mpr hne
        simp [subqueryVectorQuery, hmem, hlen, hne]
    · simp [subqueryVectorQuery, hmem]

/-- Concrete instantiation of the structured+restricted case of the ceiling
selection. -/
theorem subquery_ceiling_selection_witness :
    (subqueryVectorQuery sampleOracles samplePlan 5 "岸田総理 防衛費").restriction
        = some (applyStructuredFilter sampleOracles.filterStore samplePlan.entities) ∧
    (subqueryVectorQuery sampleOracles samplePlan 5 "岸田総理 防衛費").ceiling = 8/10 :=
  (subquery_ceiling_selection sampleOracles samplePlan 5 "岸田総理 防衛費").1
    (by rfl) (by decide)

/-- C2 counterexample: two sub-query result sequences both hit speechId
"S1", with score 0.9 first and 0.75 second; aggregation keeps the last-seen
entry (JavaScript Map insertion overwrites the value), so the single "S1"
entry carries score 0.75, not the highest score 0.9. -/
theorem aggregate_highest_score_counterexample :
    aggregateResults ([[sampleResult], [sampleResultLow]].flatten) 5
        = [sampleResultLow] ∧
    sampleResultLow.score = mkRat 3 4 ∧
    sampleResult.score = mkRat 9 10 ∧
    mkRat 3 4 ≠ mkRat 9 10 := by
  refine ⟨rfl, rfl, rfl, by decide⟩

/-- C2 amended: when two sub-query result sequences each contain one hit
with the same speechId, aggregation yields exactly one entry for that id,
namely the last-seen entry with its own score (last write wins), whether or
not that score is the highest. -/
theorem aggregate_last_seen_wins (r₁ r₂ : SpeechResult) (topK : Nat)
    (hid : r₁.speechId = r₂.speechId) (hk : 1 ≤ topK) :
    aggregateResults ([[r₁], [r₂]].flatten) topK = [r₂] := by
  have hded : dedupeBySpeechId [r₁, r₂] = [r₂] := by
    unfold dedupeBySpeechId
    simp [mapInsert, hid]
  show aggregateResults [r₁, r₂] topK = [r₂]
  unfold aggregateResults
  rw [hded]
  rw [show sortByScoreDesc [r₂] = [r₂] from rfl]
  exact List.take_of_length_le (by simpa using hk)

/-- Concrete instantiation of last-write-wins aggregation. -/
theorem aggregate_last_seen_wins_witness :
    aggregateResults ([[sampleResult], [sampleResultLow]].flatten) 5
      = [sampleResultLow] :=
  aggregate_last_seen_wins sampleResult sampleResultLow 5 rfl (by decide)

/-- C3: for every family of per-sub-query result sequences and every topK,
the aggregated output has pairwise-distinct speechIds, is sorted by score
in descending (non-increasing) order, and has length at most topK. -/
theorem aggregate_nodup_sorted_bounded (perSubquery : List (List SpeechResult))
    (topK : Nat) :
    ((aggregateResults perSubquery.flatten topK).map SpeechResult.speechId).Nodup ∧
    (aggregateResults perSubquery.flatten topK).Sorted
      (fun a b => b.score ≤ a.score) ∧
    (aggregateResults perSubquery.flatten topK).length ≤ topK := by
  unfold aggregateResults
  refine ⟨?_, ?_, ?_⟩
  · have h1 := dedupe_nodup perSubquery.flatten
    have h2 : ((sortByScoreDesc (dedupeBySpeechId perSubquery.flatten)).map
        SpeechResult.speechId).Nodup :=
      (((sortByScoreDesc_perm _).map SpeechResult.speechId).symm).nodup h1
    exact List.Nodup.sublist (List.Sublist.map _ (List.take_sublist _ _)) h2
  · exact List.Pairwise.sublist (List.take_sublist _ _) (sortByScoreDesc_sorted _)
  · rw [List.length_take]
    exact min_le_left _ _

/-- C4 counterexample: a parsed planner response whose subqueries field is
the empty array is kept verbatim (a JavaScript array, even empty, is
truthy), so the plan's subqueries is empty — it neither stays within the
1–3 bound nor defaults to the original question. -/
theorem subqueries_nonempty_counterexample :
    (createQueryPlan "防衛費の議論は？"
      { subqueries := some [], speakers := none, parties := none,
        topics := none, meetings := none, positions := none, dateRange := none,
        enabledStrategies := none, confidence := none,
        estimatedComplexity := none }).subqueries = [] := rfl

/-- C4 amended: subqueries defaults to the singleton original question only
when the parsed field is absent (or null); a present list is taken verbatim
with no validation, so it may be empty, contain empty strings, or hold more
than three elements. -/
theorem subqueries_default (question : String) (pd : PlanData) :
    (pd.subqueries = none →
      (createQueryPlan question pd).subqueries = [question]) ∧
    (∀ l, pd.subqueries = some l →
      (createQueryPlan question pd).subqueries = l) := by
  constructor
  · intro h; simp [createQueryPlan, h]
  · intro l h; simp [createQueryPlan, h]

/-- Concrete instantiation of the absent-subqueries default. -/
theorem subqueries_default_witness :
    (createQueryPlan "防衛費の議論は？"
      { subqueries := none, speakers := none, parties := none,
        topics := none, meetings := none, positions := none, dateRange := none,
        enabledStrategies := none, confidence := none,
        estimatedComplexity := none }).subqueries = ["防衛費の議論は？"] :=
  (subqueries_default "防衛費の議論は？" _).1 rfl

/-- C5 counterexample: with two sub-queries of which only the first one's
similarity store call fails, searchWithPlan does not drop that sub-query
and continue — it propagates the error and returns no merged results, even
though the sibling sub-query would succeed on its own. -/
theorem subquery_failure_aborts_counterexample :
    searchWithPlan failingOracles twoSubqueryPlan 5 = Except.error "boom" ∧
    searchSubquery failingOracles twoSubqueryPlan 5 "sq2"
      = Except.ok [sq2Result] := by
  exact ⟨rfl, rfl⟩

/-- C5 amended: partial failure is not implemented — when any sub-query's
similarity store call fails, the whole searchWithPlan fails with an error
(the sub-query loop sits in one try/catch whose handler re-throws), instead
of dropping that sub-query and returning the survivors' merged results. -/
theorem subquery_failure_aborts (o : StoreOracles) (plan : QueryPlan)
    (topK : Nat)
    (h : ∃ sq ∈ plan.subqueries, ∃ e,
      searchSubquery o plan topK sq = Except.error e) :
    ∃ e, searchWithPlan o plan topK = Except.error e := by
  rcases runSubqueries_error_of_mem o plan topK plan.subqueries [] h with ⟨e, he⟩
  exact ⟨e, by simp [searchWithPlan, he]⟩

/-- Concrete instantiation of the abort-on-failure behavior. -/
theorem subquery_failure_aborts_witness :
    ∃ e, searchWithPlan failingOracles twoSubqueryPlan 5 = Except.error e :=
  subquery_failure_aborts failingOracles twoSubqueryPlan 5
    ⟨"sq1", by simp [twoSubqueryPlan], "boom", rfl⟩

/-- C6 counterexample: the merge is not commutative over the sub-query
result sequences — swapping the arrival order of two sequences that hit the
same speechId with different scores changes the final output, because the
dedup map keeps the last-seen entry. -/
theorem merge_commutative_counterexample :
    aggregateResults ([[sampleResult], [sampleResultLow]].flatten) 5
      ≠ aggregateResults ([[sampleResultLow], [sampleResult]].flatten) 5 := by
  have h1 : aggregateResults ([[sampleResult], [sampleResultLow]].flatten) 5
      = [sampleResultLow] := rfl
  have h2 : aggregateResults ([[sampleResultLow], [sampleResult]].flatten) 5
      = [sampleResult] := rfl
  rw [h1, h2]
  intro h
  injection h with hhead htail
  exact absurd (congrArg SpeechResult.content hhead) (by decide)

/-- C6 amended: last-write-wins deduplication makes the merge
order-sensitive when a speechId repeats (and equal scores expose the stable
sort's first-seen tie-break), so order-independence holds exactly under the
side conditions the counterexample violates: when the flattened results
have pairwise-distinct speechIds and pairwise-distinct scores, every
permutation of the per-sub-query sequences yields the same output. -/
theorem merge_perm_invariant (seqs₁ seqs₂ : List (List SpeechResult))
    (topK : Nat) (hperm : seqs₁.Perm seqs₂)
    (hids : (seqs₁.flatten.map SpeechResult.speechId).Nodup)
    (hscores : (seqs₁.flatten.map SpeechResult.score).Nodup) :
    aggregateResults seqs₁.flatten topK = aggregateResults seqs₂.flatten topK := by
  have hflat : seqs₁.flatten.Perm seqs₂.flatten := hperm.flatten
  have hids₂ : (seqs₂.flatten.map SpeechResult.speechId).Nodup :=
    (hflat.map _).nodup hids
  unfold aggregateResults
  rw [dedupe_eq_self_of_nodup _ hids, dedupe_eq_self_of_nodup _ hids₂,
    sortByScoreDesc_eq_of_perm _ _ hflat hscores]

/-- Concrete instantiation of order-independence for distinct speeches. -/
theorem merge_perm_invariant_witness :
    aggregateResults ([[sampleResult], [otherResult]].flatten) 5
      = aggregateResults ([[otherResult], [sampleResult]].flatten) 5 :=
  merge_perm_invariant [[sampleResult], [otherResult]]
    [[otherResult], [sampleResult]] 5
    (List.Perm.swap [otherResult] [sampleResult] [])
    (by decide) (by decide)

/-- C7: when the completion service fails on the synthesis prompt and the
result list is non-empty, generateAnswer does not propagate the failure —
it returns the deterministic fallback assembled from the result list
(speaker, party, date, meeting, truncated content, url, score per block),
which is a non-empty string in which every result's url occurs; in
particular it contains at least one result's url. -/
theorem answer_fallback (llm : String → Except String String) (query : String)
    (results : List SpeechResult) (e : String)
    (hfail : llm (answerPrompt query results) = Except.error e)
    (_hne : results ≠ []) :
    generateAnswer llm query results = fallbackAnswer results ∧
    generateAnswer llm query results ≠ "" ∧
    ∀ r ∈ results, r.url.data <:+: (generateAnswer llm query results).data := by
  have hgen : generateAnswer llm query results = fallbackAnswer results := by
    unfold generateAnswer
    rw [hfail]
  refine ⟨hgen, ?_, ?_⟩
  · rw [hgen]
    intro hempty
    have hd : ("検索結果に基づく情報:\n\n").data
        ++ (joinSep "\n\n" (fallbackBlocks 0 results)).data = [] := by
      rw [← String.data_append]
      rw [show "検索結果に基づく情報:\n\n"
          ++ joinSep "\n\n" (fallbackBlocks 0 results)
          = fallbackAnswer results from rfl, hempty]
    have hh := (List.append_eq_nil.mp hd).1
    exact absurd hh (by decide)
  · intro r hr
    rw [hgen]
    rcases block_mem_fallbackBlocks r results 0 hr with ⟨j, hj⟩
    have h1 := url_infix_fallbackBlock j r
    have h2 := data_join_infix "\n\n" _ _ hj
    have h3 : (joinSep "\n\n" (fallbackBlocks 0 results)).data
        <:+: (fallbackAnswer results).data := by
      refine ⟨("検索結果に基づく情報:\n\n" : String).data, [], ?_⟩
      rw [List.append_nil, ← String.data_append]
      rfl
    exact (h1.trans h2).trans h3

/-- Concrete instantiation of the synthesis fallback. -/
theorem answer_fallback_witness :
    generateAnswer (fun _ => Except.error "down") "防衛費" [sampleResult]
        = fallbackAnswer [sampleResult] ∧
    sampleResult.url.data <:+:
      (generateAnswer (fun _ => Except.error "down") "防衛費" [sampleResult]).data :=
  ⟨(answer_fallback (fun _ => Except.error "down") "防衛費" [sampleResult]
      "down" rfl (by decide)).1,
   (answer_fallback (fun _ => Except.error "down") "防衛費" [sampleResult]
      "down" rfl (by decide)).2.2 sampleResult (by simp)⟩

/-- C8: when the store query behind the structured filter fails, the filter
does not raise; it returns the empty "no restriction" candidate list. -/
theorem structured_filter_store_failure
    (filterStore : List FilterCondition → Except String (List String))
    (entities : KokkaiEntities) (e : String)
    (h : filterStore (buildConditions entities) = Except.error e) :
    applyStructuredFilter filterStore entities = [] := by
  unfold applyStructuredFilter
  by_cases hc : (buildConditions entities).length = 0
  · simp [hc]
  · simp [hc, h]

/-- Concrete instantiation of the failing filter store. -/
theorem structured_filter_store_failure_witness :
    applyStructuredFilter (fun _ => Except.error "connection reset")
      sampleEntities = [] :=
  structured_filter_store_failure (fun _ => Except.error "connection reset")
    sampleEntities "connection reset" rfl

/-- C9 counterexample: a parsed confidence of 0 is present and inside [0,1]
yet replaced by the default 0.5 (0 is falsy), and a parsed
estimatedComplexity of 7 is outside [1,5] yet kept verbatim. -/
theorem confidence_default_counterexample :
    (createQueryPlan "q" invalidNumbersPlanData).confidence = 1/2 ∧
    (createQueryPlan "q" invalidNumbersPlanData).estimatedComplexity = 7 ∧
    ¬ (createQueryPlan "q" invalidNumbersPlanData).estimatedComplexity ≤ 5 := by
  refine ⟨rfl, rfl, by decide⟩

/-- C9 amended: confidence and estimatedComplexity take the parsed value
exactly when it is present and nonzero (JavaScript truthiness), with no
range validation; the defaults 0.5 and 2 apply only when the parsed value
is absent or zero. -/
theorem confidence_complexity_defaults (question : String) (pd : PlanData) :
    ((pd.confidence = none ∨ pd.confidence = some 0) →
      (createQueryPlan question pd).confidence = 1/2) ∧
    (∀ c : ℚ, pd.confidence = some c → c ≠ 0 →
      (createQueryPlan question pd).confidence = c) ∧
    ((pd.estimatedComplexity = none ∨ pd.estimatedComplexity = some 0) →
      (createQueryPlan question pd).estimatedComplexity = 2) ∧
    (∀ c : ℚ, pd.estimatedComplexity = some c → c ≠ 0 →
      (createQueryPlan question pd).estimatedComplexity = c) := by
  refine ⟨?_, ?_, ?_, ?_⟩
  · rintro (h | h) <;> simp [createQueryPlan, jsOrNum, h]
  · intro c h hc; simp [createQueryPlan, jsOrNum, h, hc]
  · rintro (h | h) <;> simp [createQueryPlan, jsOrNum, h]
  · intro c h hc; simp [createQueryPlan, jsOrNum, h, hc]

/-- Concrete instantiation of the zero-confidence default. -/
theorem confidence_complexity_defaults_witness :
    (createQueryPlan "q" invalidNumbersPlanData).confidence = 1/2 :=
  (confidence_complexity_defaults "q" invalidNumbersPlanData).1 (Or.inr rfl)

/-- C10: the structured predicate is built only from speakers, parties and
dateRange — two plans agreeing on those (and on the strategies) produce the
same candidate set, the same restriction and the same ceiling no matter how
their meetings, positions or topics differ; topics influence only the text
handed to the embedding service (space-joined and appended). -/
theorem entity_frame_effect (o : StoreOracles) (p₁ p₂ : QueryPlan)
    (topK : Nat) (subquery : String)
    (hstrat : p₁.enabledStrategies = p₂.enabledStrategies)
    (hs : p₁.entities.speakers = p₂.entities.speakers)
    (hp : p₁.entities.parties = p₂.entities.parties)
    (hd : p₁.entities.dateRange = p₂.entities.dateRange) :
    applyStructuredFilter o.filterStore p₁.entities
        = applyStructuredFilter o.filterStore p₂.entities ∧
    (subqueryVectorQuery o p₁ topK subquery).restriction
        = (subqueryVectorQuery o p₂ topK subquery).restriction ∧
    (subqueryVectorQuery o p₁ topK subquery).ceiling
        = (subqueryVectorQuery o p₂ topK subquery).ceiling ∧
    (p₁.entities.topics = p₂.entities.topics →
      subqueryVectorQuery o p₁ topK subquery
        = subqueryVectorQuery o p₂ topK subquery) ∧
    (subqueryVectorQuery o p₁ topK subquery).embedding
        = o.embed (expandQuery subquery p₁.entities.topics) := by
  have hcond : buildConditions p₁.entities = buildConditions p₂.entities := by
    unfold buildConditions
    rw [hs, hp, hd]
  have hfilter : applyStructuredFilter o.filterStore p₁.entities
      = applyStructuredFilter o.filterStore p₂.entities := by
    unfold applyStructuredFilter
    rw [hcond]
  refine ⟨hfilter, ?_, ?_, ?_, ?_⟩
  · unfold subqueryVectorQuery
    rw [hstrat, hfilter]
    by_cases hc : "structured" ∈ p₂.enabledStrategies
    · by_cases hlen : 0 < (applyStructuredFilter o.filterStore p₂.entities).length
      · simp [hc, hlen]
      · simp [hc, hlen]
    · simp [hc]
  · unfold subqueryVectorQuery
    rw [hstrat, hfilter]
    by_cases hc : "structured" ∈ p₂.enabledStrategies
    · by_cases hlen : 0 < (applyStructuredFilter o.filterStore p₂.entities).length
      · simp [hc, hlen]
      · simp [hc, hlen]
    · simp [hc]
  · intro htopics
    unfold subqueryVectorQuery
    rw [hstrat, hfilter, htopics]
  · unfold subqueryVectorQuery
    by_cases hc : "structured" ∈ p₁.enabledStrategies
    · by_cases hlen : 0 < (applyStructuredFilter o.filterStore p₁.entities).length
      · simp [hc, hlen]
      · simp [hc, hlen]
    · simp [hc]

/-- Concrete instantiation of the frame property: adding meetings, positions
and topics leaves the candidate set unchanged. -/
theorem entity_frame_effect_witness :
    applyStructuredFilter sampleOracles.filterStore samplePlan.entities
      = applyStructuredFilter sampleOracles.filterStore framePlan.entities :=
  (entity_frame_effect sampleOracles samplePlan framePlan 5 "岸田総理 防衛費"
    rfl rfl rfl rfl).1

end KokkaiRag
